import Mathlib

/-!
Shallow embedding of the connector-integration core of the repository:
the authorize.net transformer module
(crates/router/src/connector/authorizedotnet/transformers.rs) and the
storage helper get_and_deserialize_key (crates/router/src/db.rs).
Rust enums and structs become Lean inductives and structures; fallible
Rust functions returning Result become Lean functions into Except.
-/

namespace Hyperswitch

/-- Modelled from the spec: the canonical attempt status enumeration
(`enums::AttemptStatus`) is declared outside the provided sources; the spec
lists it as a closed set including at least Pending, Authorized, Charged,
Failure, Voided, VoidFailed, AuthenticationFailed, which covers every
variant the provided transformer code produces. -/
inductive AttemptStatus where
  | Pending
  | Authorized
  | Charged
  | Failure
  | Voided
  | VoidFailed
  | AuthenticationFailed
  deriving DecidableEq, Repr

/-- Modelled from the spec: the canonical refund status enumeration
(`enums::RefundStatus`), a closed set including at least Pending, Success,
Failure, covering every variant the provided transformer code produces. -/
inductive RefundStatus where
  | Pending
  | Success
  | Failure
  deriving DecidableEq, Repr

/-- Native payment status of the connector (transformers.rs lines 258-269),
wire codes "1".."4"; the `#[default]` attribute marks HeldForReview as the
default variant. -/
inductive AuthorizedotnetPaymentStatus where
  | Approved
  | Declined
  | Error
  | HeldForReview
  deriving DecidableEq, Repr

/-- Mirrors the Rust `#[default]` attribute on HeldForReview. -/
instance : Inhabited AuthorizedotnetPaymentStatus :=
  ⟨AuthorizedotnetPaymentStatus.HeldForReview⟩

/-- Native sync status vocabulary (transformers.rs lines 570-582). -/
inductive SyncStatus where
  | RefundSettledSuccessfully
  | RefundPendingSettlement
  | AuthorizedPendingCapture
  | CapturedPendingSettlement
  | SettledSuccessfully
  | Declined
  | Voided
  | CouldNotVoid
  | GeneralError
  deriving DecidableEq, Repr

/-- `impl From<AuthorizedotnetPaymentStatus> for enums::AttemptStatus`
(transformers.rs lines 273-283). -/
def AttemptStatus.fromPaymentStatus : AuthorizedotnetPaymentStatus → AttemptStatus
  | AuthorizedotnetPaymentStatus.Approved => AttemptStatus.Charged
  | AuthorizedotnetPaymentStatus.Declined
  | AuthorizedotnetPaymentStatus.Error => AttemptStatus.Failure
  | AuthorizedotnetPaymentStatus.HeldForReview => AttemptStatus.Pending

/-- `impl From<AuthorizedotnetPaymentStatus> for enums::RefundStatus`
(transformers.rs lines 452-462). -/
def RefundStatus.fromPaymentStatus : AuthorizedotnetPaymentStatus → RefundStatus
  | AuthorizedotnetPaymentStatus.Approved => RefundStatus.Success
  | AuthorizedotnetPaymentStatus.Declined
  | AuthorizedotnetPaymentStatus.Error => RefundStatus.Failure
  | AuthorizedotnetPaymentStatus.HeldForReview => RefundStatus.Pending

/-- `impl From<SyncStatus> for enums::RefundStatus`
(transformers.rs lines 596-604): only the two refund-settlement states map
to Success and Pending; the catch-all arm maps to Failure. -/
def RefundStatus.fromSyncStatus : SyncStatus → RefundStatus
  | SyncStatus.RefundSettledSuccessfully => RefundStatus.Success
  | SyncStatus.RefundPendingSettlement => RefundStatus.Pending
  | _ => RefundStatus.Failure

/-- `impl From<SyncStatus> for enums::AttemptStatus`
(transformers.rs lines 606-619): here the catch-all arm maps to Pending. -/
def AttemptStatus.fromSyncStatus : SyncStatus → AttemptStatus
  | SyncStatus.SettledSuccessfully
  | SyncStatus.CapturedPendingSettlement => AttemptStatus.Charged
  | SyncStatus.Declined => AttemptStatus.AuthenticationFailed
  | SyncStatus.Voided => AttemptStatus.Voided
  | SyncStatus.CouldNotVoid => AttemptStatus.VoidFailed
  | SyncStatus.GeneralError => AttemptStatus.Failure
  | _ => AttemptStatus.Pending

/-- `get_payment_status` (transformers.rs lines 285-291). -/
def get_payment_status (is_auth_only : Bool) (status : AttemptStatus) : AttemptStatus :=
  let is_authorized :=
    match status with
    | AttemptStatus.Charged => true
    | _ => false
  if is_auth_only && is_authorized then AttemptStatus.Authorized else status

/-- Modelled from the spec: `types::ConnectorAuthType` is declared outside
the provided sources; the spec describes it as a tagged variant of
credential shapes (API-key-only, body-embedded key, key-pair with secret),
and the provided code matches on the `BodyKey {api_key, key1}` variant. -/
inductive ConnectorAuthType where
  | HeaderKey (api_key : String)
  | BodyKey (api_key : String) (key1 : String)
  | SignatureKey (api_key : String) (key1 : String) (api_secret : String)
  deriving DecidableEq, Repr

/-- Connector error taxonomy (`errors::ConnectorError`), restricted to the
variants the provided transformer code produces. -/
inductive ConnectorError where
  | FailedToObtainAuthType
  | MissingRequiredField (field_name : String)
  | NotImplemented (message : String)
  | RequestEncodingFailed
  | MissingConnectorRefundID
  | ResponseHandlingFailed
  deriving DecidableEq, Repr

/-- `MerchantAuthentication` (transformers.rs lines 27-32). -/
structure MerchantAuthentication where
  name : String
  transaction_key : String
  deriving DecidableEq, Repr

/-- `impl TryFrom<&types::ConnectorAuthType> for MerchantAuthentication`
(transformers.rs lines 34-47). -/
def MerchantAuthentication.tryFromAuthType
    (auth_type : ConnectorAuthType) : Except ConnectorError MerchantAuthentication :=
  match auth_type with
  | ConnectorAuthType.BodyKey api_key key1 =>
      Except.ok { name := key1, transaction_key := api_key }
  | _ => Except.error ConnectorError.FailedToObtainAuthType

/-- Model of `serde_json::Value`, the opaque JSON blob type used for
`connector_metadata`. Numbers are not needed by the embedded code paths
but are kept for shape fidelity. -/
inductive Json where
  | null
  | bool (b : Bool)
  | num (n : Int)
  | str (s : String)
  | arr (elems : List Json)
  | obj (fields : List (String × Json))

/-- `CreditCardDetails` (transformers.rs lines 49-56); the masking wrappers
`masking::Secret` are modelled as the underlying String. -/
structure CreditCardDetails where
  card_number : String
  expiration_date : String
  card_code : Option String
  deriving DecidableEq, Repr

/-- `BankAccountDetails` (transformers.rs lines 58-62). -/
structure BankAccountDetails where
  account_number : String
  deriving DecidableEq, Repr

/-- `WalletDetails` (transformers.rs lines 64-69). -/
structure WalletDetails where
  data_descriptor : String
  data_value : String
  deriving DecidableEq, Repr

/-- `PaymentDetails` (transformers.rs lines 72-82). -/
inductive PaymentDetails where
  | CreditCard (details : CreditCardDetails)
  | BankAccount (details : BankAccountDetails)
  | Wallet (details : WalletDetails)
  | Klarna
  | Paypal
  deriving DecidableEq, Repr

/-- serde serialization of `CreditCardDetails`: camelCase field names in
declaration order, `card_code` skipped when None
(`#[serde(skip_serializing_if = "Option::is_none")]`). -/
def encodeCreditCardDetails (c : CreditCardDetails) : Json :=
  Json.obj
    ([("cardNumber", Json.str c.card_number),
      ("expirationDate", Json.str c.expiration_date)] ++
      (match c.card_code with
       | none => []
       | some code => [("cardCode", Json.str code)]))

/-- serde serialization of `BankAccountDetails`. -/
def encodeBankAccountDetails (b : BankAccountDetails) : Json :=
  Json.obj [("accountNumber", Json.str b.account_number)]

/-- serde serialization of `WalletDetails`. -/
def encodeWalletDetails (w : WalletDetails) : Json :=
  Json.obj [("dataDescriptor", Json.str w.data_descriptor),
            ("dataValue", Json.str w.data_value)]

/-- serde serialization of the externally tagged enum `PaymentDetails`
with its rename attributes (creditCard, bankAccount, opaqueData); unit
variants serialize as plain strings. Mirrors
`Encode::<PaymentDetails>::encode_to_value`, which is infallible on this
data (all object keys are strings), hence modelled total. -/
def encodePaymentDetails : PaymentDetails → Json
  | PaymentDetails.CreditCard c => Json.obj [("creditCard", encodeCreditCardDetails c)]
  | PaymentDetails.BankAccount b => Json.obj [("bankAccount", encodeBankAccountDetails b)]
  | PaymentDetails.Wallet w => Json.obj [("opaqueData", encodeWalletDetails w)]
  | PaymentDetails.Klarna => Json.str "Klarna"
  | PaymentDetails.Paypal => Json.str "Paypal"

/-- First binding of a key in a serde-style JSON object. -/
def lookupField (fields : List (String × Json)) (key : String) : Option Json :=
  match fields with
  | [] => none
  | (k, v) :: rest => if k = key then some v else lookupField rest key

/-- serde deserialization of `CreditCardDetails`: both camelCase fields
required, `cardCode` optional (an `Option` field absent from the payload
deserializes to None). -/
def decodeCreditCardDetails (j : Json) : Option CreditCardDetails :=
  match j with
  | Json.obj fields =>
      match lookupField fields "cardNumber", lookupField fields "expirationDate" with
      | some (Json.str n), some (Json.str e) =>
          match lookupField fields "cardCode" with
          | none => some { card_number := n, expiration_date := e, card_code := none }
          | some (Json.str c) =>
              some { card_number := n, expiration_date := e, card_code := some c }
          | some _ => none
      | _, _ => none
  | _ => none

/-- serde deserialization of `BankAccountDetails`. -/
def decodeBankAccountDetails (j : Json) : Option BankAccountDetails :=
  match j with
  | Json.obj fields =>
      match lookupField fields "accountNumber" with
      | some (Json.str a) => some { account_number := a }
      | _ => none
  | _ => none

/-- serde deserialization of `WalletDetails`. -/
def decodeWalletDetails (j : Json) : Option WalletDetails :=
  match j with
  | Json.obj fields =>
      match lookupField fields "dataDescriptor", lookupField fields "dataValue" with
      | some (Json.str d), some (Json.str v) =>
          some { data_descriptor := d, data_value := v }
      | _, _ => none
  | _ => none

/-- serde deserialization of the externally tagged enum `PaymentDetails`;
mirrors `parse_value::<PaymentDetails>("PaymentDetails")` in the refund
build (transformers.rs lines 434-438). -/
def decodePaymentDetails (j : Json) : Option PaymentDetails :=
  match j with
  | Json.str "Klarna" => some PaymentDetails.Klarna
  | Json.str "Paypal" => some PaymentDetails.Paypal
  | Json.obj [(tag, v)] =>
      if tag = "creditCard" then (decodeCreditCardDetails v).map PaymentDetails.CreditCard
      else if tag = "bankAccount" then
        (decodeBankAccountDetails v).map PaymentDetails.BankAccount
      else if tag = "opaqueData" then (decodeWalletDetails v).map PaymentDetails.Wallet
      else none
  | _ => none

/-- `construct_refund_payment_details` (transformers.rs lines 703-709). -/
def construct_refund_payment_details (masked_number : String) : PaymentDetails :=
  PaymentDetails.CreditCard
    { card_number := masked_number, expiration_date := "XXXX", card_code := none }

/-- `TransactionType` (transformers.rs lines 14-26). -/
inductive TransactionType where
  | Payment
  | PaymentAuthOnly
  | Capture
  | Refund
  | Void
  deriving DecidableEq, Repr

/-- `PaymentRequestData` (transformers.rs lines 131-138). -/
structure PaymentRequestData where
  transaction_type : TransactionType
  amount : Int
  currency_code : String
  payment : PaymentDetails
  deriving DecidableEq, Repr

/-- `CaptureRequestData` (transformers.rs lines 140-146). -/
structure CaptureRequestData where
  transaction_type : TransactionType
  amount : Int
  ref_trans_id : String
  deriving DecidableEq, Repr

/-- `VoidRequestData` (transformers.rs lines 154-159). -/
structure VoidRequestData where
  transaction_type : TransactionType
  ref_trans_id : String
  deriving DecidableEq, Repr

/-- `RefundRequestData` (transformers.rs lines 405-414). -/
structure RefundRequestData where
  transaction_type : TransactionType
  amount : Int
  currency_code : String
  payment : PaymentDetails
  reference_transaction_id : String
  deriving DecidableEq, Repr

/-- `TransactionRequest` (transformers.rs lines 122-129). -/
inductive TransactionRequest where
  | AuthRequest (data : PaymentRequestData)
  | CaptureRequest (data : CaptureRequestData)
  | VoidRequest (data : VoidRequestData)
  | RefundRequest (data : RefundRequestData)
  deriving DecidableEq, Repr

/-- `AuthorizedotnetPaymentsRequest` (transformers.rs lines 161-166). -/
structure AuthorizedotnetPaymentsRequest where
  merchant_authentication : MerchantAuthentication
  transaction_request : TransactionRequest
  deriving DecidableEq, Repr

/-- `CreateTransactionRequest` (transformers.rs lines 168-173). -/
structure CreateTransactionRequest where
  create_transaction_request : AuthorizedotnetPaymentsRequest
  deriving DecidableEq, Repr

/-- `ResponseMessage` (transformers.rs lines 293-297). -/
structure ResponseMessage where
  code : String
  text : String
  deriving DecidableEq, Repr

/-- `ResultCode` (transformers.rs lines 299-303). -/
inductive ResultCode where
  | Ok
  | Error
  deriving DecidableEq, Repr

/-- `ResponseMessages` (transformers.rs lines 305-310). -/
structure ResponseMessages where
  result_code : ResultCode
  message : List ResponseMessage
  deriving DecidableEq, Repr

/-- `ErrorMessage` (transformers.rs lines 312-317). -/
structure ErrorMessage where
  error_code : String
  error_text : String
  deriving DecidableEq, Repr

/-- `TransactionResponse` (transformers.rs lines 319-328). -/
structure TransactionResponse where
  response_code : AuthorizedotnetPaymentStatus
  auth_code : String
  transaction_id : String
  account_number : Option String
  errors : Option (List ErrorMessage)
  deriving DecidableEq, Repr

/-- `AuthorizedotnetPaymentsResponse` (transformers.rs lines 330-335). -/
structure AuthorizedotnetPaymentsResponse where
  transaction_response : TransactionResponse
  messages : ResponseMessages
  deriving DecidableEq, Repr

/-- `AuthorizedotnetRefundResponse` (transformers.rs lines 464-469). -/
structure AuthorizedotnetRefundResponse where
  transaction_response : TransactionResponse
  messages : ResponseMessages
  deriving DecidableEq, Repr

/-- `SyncTransactionResponse` (transformers.rs lines 583-589). -/
structure SyncTransactionResponse where
  transaction_id : String
  transaction_status : SyncStatus
  deriving DecidableEq, Repr

/-- `AuthorizedotnetSyncResponse` (transformers.rs lines 591-594). -/
structure AuthorizedotnetSyncResponse where
  transaction : SyncTransactionResponse
  deriving DecidableEq, Repr

/-- Modelled from the spec: the canonical error payload
(`types::ErrorResponse`) — code, message, optional reason, and the
transport-level HTTP status of the call. Declared outside the provided
sources; field set taken from the spec and the literals the provided code
constructs. -/
structure ErrorResponse where
  code : String
  message : String
  reason : Option String
  status_code : Nat
  deriving DecidableEq, Repr

/-- Modelled from the spec: connector resource identifier
(`types::ResponseId`); the provided code only constructs the
ConnectorTransactionId variant. -/
inductive ResponseId where
  | ConnectorTransactionId (id : String)
  deriving DecidableEq, Repr

/-- Modelled from the spec: the success payload for payment flows
(`types::PaymentsResponseData::TransactionResponse`), with the fields the
provided code populates. -/
structure PaymentsResponseData where
  resource_id : ResponseId
  redirection_data : Option String
  redirect : Bool
  mandate_reference : Option String
  connector_metadata : Option Json

/-- Modelled from the spec: the success payload for refund flows
(`types::RefundsResponseData`). -/
structure RefundsResponseData where
  connector_refund_id : String
  refund_status : RefundStatus
  deriving DecidableEq, Repr

/-- Modelled from the spec: the canonical transaction record for payment
flows (`types::RouterData`), restricted to the fields the embedded
transformers read or write. -/
structure PaymentsRouterData where
  status : AttemptStatus
  connector_auth_type : ConnectorAuthType
  response : Except ErrorResponse PaymentsResponseData

/-- Modelled from the spec: the refund-flow request payload
(`types::RefundsData`), restricted to the fields the embedded transformers
read. -/
structure RefundsRequestData where
  refund_amount : Int
  currency : String
  connector_transaction_id : String
  connector_metadata : Option Json
  connector_refund_id : Option String

/-- Modelled from the spec: the canonical refund record
(`types::RefundsRouterData`), restricted to the fields the embedded
transformers read or write. -/
structure RefundsRouterData where
  connector_auth_type : ConnectorAuthType
  request : RefundsRequestData
  response : Except ErrorResponse RefundsResponseData

/-- Modelled from the spec: `types::ResponseRouterData` — the wire
response paired with the canonical record being updated and the
transport-level HTTP status of the call. -/
structure ResponseRouterData (Resp Data : Type) where
  response : Resp
  data : Data
  http_code : Nat

/-- Parse transformer for payments responses:
`impl TryFrom<(ResponseRouterData<..AuthorizedotnetPaymentsResponse..>, bool)>
for RouterData` (transformers.rs lines 337-403). The metadata encoding
(`Encode::encode_to_value`) is infallible on `PaymentDetails` (all object
keys are strings), so the Option transpose never yields the
MissingRequiredField error arm of line 382 and is modelled total. -/
def parsePaymentsResponse
    (item : ResponseRouterData AuthorizedotnetPaymentsResponse PaymentsRouterData)
    (is_auth_only : Bool) : Except ConnectorError PaymentsRouterData :=
  let status := AttemptStatus.fromPaymentStatus item.response.transaction_response.response_code
  let error : Option ErrorResponse :=
    item.response.transaction_response.errors.bind fun errors =>
      errors.head?.map fun e =>
        { code := e.error_code, message := e.error_text, reason := none,
          status_code := item.http_code }
  let metadata : Option Json :=
    item.response.transaction_response.account_number.map fun acc_no =>
      encodePaymentDetails (construct_refund_payment_details acc_no)
  Except.ok
    { item.data with
      status := get_payment_status is_auth_only status,
      response :=
        match error with
        | some err => Except.error err
        | none =>
            Except.ok
              { resource_id := ResponseId.ConnectorTransactionId
                  item.response.transaction_response.transaction_id,
                redirection_data := none,
                redirect := false,
                mandate_reference := none,
                connector_metadata := metadata } }

/-- Build transformer for refund requests:
`impl TryFrom<&types::RefundsRouterData<F>> for CreateTransactionRequest`
(transformers.rs lines 416-450). Fallible steps in source order: the
`connector_metadata` requiredness check, the merchant auth extraction, and
`parse_value::<PaymentDetails>` on the metadata. -/
def buildRefundRequest (item : RefundsRouterData) :
    Except ConnectorError CreateTransactionRequest := do
  let payment_details ←
    match item.request.connector_metadata with
    | some value => Except.ok value
    | none => Except.error (ConnectorError.MissingRequiredField "connector_metadata")
  let merchant_authentication ←
    MerchantAuthentication.tryFromAuthType item.connector_auth_type
  let payment ←
    match decodePaymentDetails payment_details with
    | some p => Except.ok p
    | none => Except.error (ConnectorError.MissingRequiredField "payment_details")
  Except.ok
    { create_transaction_request :=
      { merchant_authentication := merchant_authentication,
        transaction_request :=
          TransactionRequest.RefundRequest
            { transaction_type := TransactionType.Refund,
              amount := item.request.refund_amount,
              payment := payment,
              currency_code := item.request.currency,
              reference_transaction_id := item.request.connector_transaction_id } } }

/-- Parse transformer for refund responses:
`impl TryFrom<RefundsResponseRouterData<F, AuthorizedotnetRefundResponse>>
for RefundsRouterData` (transformers.rs lines 471-500). -/
def parseRefundResponse
    (item : ResponseRouterData AuthorizedotnetRefundResponse RefundsRouterData) :
    Except ConnectorError RefundsRouterData :=
  let transaction_response := item.response.transaction_response
  let refund_status := RefundStatus.fromPaymentStatus transaction_response.response_code
  let error : Option ErrorResponse :=
    transaction_response.errors.bind fun errors =>
      errors.head?.map fun e =>
        { code := e.error_code, message := e.error_text, reason := none,
          status_code := item.http_code }
  Except.ok
    { item.data with
      response :=
        match error with
        | some err => Except.error err
        | none =>
            Except.ok
              { connector_refund_id := transaction_response.transaction_id,
                refund_status := refund_status } }

/-- Parse transformer for refund-sync responses:
`impl TryFrom<RefundsResponseRouterData<api::RSync, AuthorizedotnetSyncResponse>>
for RefundsRouterData` (transformers.rs lines 621-638). -/
def parseRefundSyncResponse
    (item : ResponseRouterData AuthorizedotnetSyncResponse RefundsRouterData) :
    Except ConnectorError RefundsRouterData :=
  let refund_status := RefundStatus.fromSyncStatus item.response.transaction.transaction_status
  Except.ok
    { item.data with
      response :=
        Except.ok
          { connector_refund_id := item.response.transaction.transaction_id,
            refund_status := refund_status } }

/-- Modelled from the spec: the Redis-backed key-value error taxonomy
(`redis_interface::errors::RedisError`) is declared outside the provided
sources; the spec requires a typed deserialization error distinct from a
not-found error. -/
inductive RedisError where
  | NotFound
  | JsonDeserializationFailed
  | GetFailed
  deriving DecidableEq, Repr

/-- `get_and_deserialize_key` (db.rs lines 138-153). The collaborators
`get_key` (on the storage object, declared outside the provided sources)
and `parse_struct` (ByteSliceExt) are taken as parameters; the control
flow is the helper's own: a `get_key` failure is propagated unchanged by
`?`, and any parse failure is mapped by `change_context` to
JsonDeserializationFailed. -/
def get_and_deserialize_key {T : Type}
    (get_key : String → Except RedisError (List Nat))
    (parse_struct : List Nat → String → Option T)
    (key : String) (type_name : String) : Except RedisError T :=
  match get_key key with
  | Except.error e => Except.error e
  | Except.ok bytes =>
      match parse_struct bytes type_name with
      | some v => Except.ok v
      | none => Except.error RedisError.JsonDeserializationFailed

/-! Concrete sample values used to instantiate the theorems below. -/

/-- A placeholder canonical error payload for seeding sample records. -/
def blankError : ErrorResponse :=
  { code := "", message := "", reason := none, status_code := 0 }

/-- A sample prior canonical payment record awaiting a response. -/
def samplePriorPaymentRecord : PaymentsRouterData :=
  { status := AttemptStatus.Pending,
    connector_auth_type := ConnectorAuthType.BodyKey "api" "key1",
    response := Except.error blankError }

/-- A sample approved authorize wire response carrying a masked account
number and no native errors. -/
def sampleAuthorizeItem :
    ResponseRouterData AuthorizedotnetPaymentsResponse PaymentsRouterData :=
  { response :=
      { transaction_response :=
          { response_code := AuthorizedotnetPaymentStatus.Approved,
            auth_code := "AUTH1",
            transaction_id := "tid1",
            account_number := some "XXXX1111",
            errors := none },
        messages := { result_code := ResultCode.Ok, message := [] } },
    data := samplePriorPaymentRecord,
    http_code := 200 }

/-- The connector metadata the sample authorize response produces. -/
def sampleMetadata : Json :=
  encodePaymentDetails (construct_refund_payment_details "XXXX1111")

/-- The success payload the sample authorize response parses to. -/
def sampleParsedPayload : PaymentsResponseData :=
  { resource_id := ResponseId.ConnectorTransactionId "tid1",
    redirection_data := none,
    redirect := false,
    mandate_reference := none,
    connector_metadata := some sampleMetadata }

/-- The canonical record the sample authorize response parses to. -/
def sampleParsedRecord : PaymentsRouterData :=
  { status := AttemptStatus.Charged,
    connector_auth_type := ConnectorAuthType.BodyKey "api" "key1",
    response := Except.ok sampleParsedPayload }

/-- A sample refund request payload carrying the sample metadata. -/
def sampleRefundRequestData : RefundsRequestData :=
  { refund_amount := 100,
    currency := "USD",
    connector_transaction_id := "tid1",
    connector_metadata := some sampleMetadata,
    connector_refund_id := none }

/-- A sample canonical refund record with BodyKey credentials and the
sample metadata. -/
def sampleRefundRecordBodyKey : RefundsRouterData :=
  { connector_auth_type := ConnectorAuthType.BodyKey "api" "key1",
    request := sampleRefundRequestData,
    response := Except.error blankError }

/-- The same refund record but with HeaderKey credentials. -/
def sampleRefundRecordHeaderKey : RefundsRouterData :=
  { connector_auth_type := ConnectorAuthType.HeaderKey "api",
    request := sampleRefundRequestData,
    response := Except.error blankError }

/-- The same refund record but with no connector metadata at all. -/
def sampleRefundRecordNoMetadata : RefundsRouterData :=
  { connector_auth_type := ConnectorAuthType.BodyKey "api" "key1",
    request := { sampleRefundRequestData with connector_metadata := none },
    response := Except.error blankError }

/-- A sample declined payments wire response with one native error entry
(code "2", text "Declined"). -/
def sampleDeclinedItem :
    ResponseRouterData AuthorizedotnetPaymentsResponse PaymentsRouterData :=
  { response :=
      { transaction_response :=
          { response_code := AuthorizedotnetPaymentStatus.Declined,
            auth_code := "",
            transaction_id := "tid2",
            account_number := none,
            errors := some [{ error_code := "2", error_text := "Declined" }] },
        messages := { result_code := ResultCode.Ok, message := [] } },
    data := samplePriorPaymentRecord,
    http_code := 200 }

/-- A sample prior canonical refund record awaiting a response. -/
def samplePriorRefundRecord : RefundsRouterData :=
  { connector_auth_type := ConnectorAuthType.BodyKey "api" "key1",
    request := sampleRefundRequestData,
    response := Except.error blankError }

/-- A sample refund wire response with one native error entry. -/
def sampleRefundErrorItem :
    ResponseRouterData AuthorizedotnetRefundResponse RefundsRouterData :=
  { response :=
      { transaction_response :=
          { response_code := AuthorizedotnetPaymentStatus.Error,
            auth_code := "",
            transaction_id := "rid2",
            account_number := none,
            errors := some [{ error_code := "5", error_text := "Bad amount" }] },
        messages := { result_code := ResultCode.Error, message := [] } },
    data := samplePriorRefundRecord,
    http_code := 502 }

/-- A sample approved refund wire response with no native errors. -/
def sampleRefundOkItem :
    ResponseRouterData AuthorizedotnetRefundResponse RefundsRouterData :=
  { response :=
      { transaction_response :=
          { response_code := AuthorizedotnetPaymentStatus.Approved,
            auth_code := "",
            transaction_id := "rid1",
            account_number := none,
            errors := none },
        messages := { result_code := ResultCode.Ok, message := [] } },
    data := samplePriorRefundRecord,
    http_code := 200 }

/-- A sample refund-sync wire response in a non-refund native state. -/
def sampleRefundSyncItem :
    ResponseRouterData AuthorizedotnetSyncResponse RefundsRouterData :=
  { response :=
      { transaction :=
          { transaction_id := "rid3",
            transaction_status := SyncStatus.Voided } },
    data := samplePriorRefundRecord,
    http_code := 200 }

/-- The canonical record the sample approved refund response parses to. -/
def sampleRefundParsedRecord : RefundsRouterData :=
  { samplePriorRefundRecord with
    response := Except.ok
      { connector_refund_id := "rid1", refund_status := RefundStatus.Success } }

/-- A sample key-value store mapping the key "k1" to one stored byte and
holding nothing else. -/
def sampleGetKey (key : String) : Except RedisError (List Nat) :=
  if key = "k1" then Except.ok [123] else Except.error RedisError.NotFound

/-- A sample parse function that rejects every byte string. -/
def sampleRejectingParse (_bytes : List Nat) (_type_name : String) : Option Nat :=
  none

/-! Theorems settling the claims. -/

/-- C1 counterexample: the refund-sync status normalization maps the
native state AuthorizedPendingCapture — which is neither a terminal
refund-settlement state nor a pending-settlement state — to Failure, not
to Pending, refuting the claim that every unrecognized state maps to
Pending and never to Failure. -/
theorem refund_sync_unrecognized_counterexample :
    RefundStatus.fromSyncStatus SyncStatus.AuthorizedPendingCapture = RefundStatus.Failure ∧
    RefundStatus.fromSyncStatus SyncStatus.AuthorizedPendingCapture ≠ RefundStatus.Pending := by
  exact ⟨rfl, by decide⟩

/-- C1 (amended): for every refund-sync native transaction status that is
not a recognized refund-settlement state (neither RefundSettledSuccessfully
nor RefundPendingSettlement), the refund-sync status normalization maps it
to canonical refund status Failure, never to Pending. -/
theorem refund_sync_unrecognized_maps_to_failure (s : SyncStatus)
    (h1 : s ≠ SyncStatus.RefundSettledSuccessfully)
    (h2 : s ≠ SyncStatus.RefundPendingSettlement) :
    RefundStatus.fromSyncStatus s = RefundStatus.Failure := by
  cases s <;> first
    | rfl
    | exact absurd rfl h1
    | exact absurd rfl h2

/-- C1 witness: the amended theorem applied at the concrete state Voided. -/
theorem refund_sync_unrecognized_maps_to_failure_witness :
    RefundStatus.fromSyncStatus SyncStatus.Voided = RefundStatus.Failure :=
  refund_sync_unrecognized_maps_to_failure SyncStatus.Voided (by decide) (by decide)

/-- C2: get_payment_status returns Authorized precisely by downgrading a
Charged status when is_auth_only holds, and returns the status unchanged
in every other case; in particular native Approved with is_auth_only true
yields Authorized and with is_auth_only false yields Charged. -/
theorem get_payment_status_spec (is_auth_only : Bool) (s : AttemptStatus) :
    (get_payment_status is_auth_only s =
      if is_auth_only = true ∧ s = AttemptStatus.Charged then AttemptStatus.Authorized else s) ∧
    get_payment_status true
        (AttemptStatus.fromPaymentStatus AuthorizedotnetPaymentStatus.Approved) =
      AttemptStatus.Authorized ∧
    get_payment_status false
        (AttemptStatus.fromPaymentStatus AuthorizedotnetPaymentStatus.Approved) =
      AttemptStatus.Charged := by
  refine ⟨?_, rfl, rfl⟩
  cases is_auth_only <;> cases s <;> simp [get_payment_status]

/-- C5: the merchant auth extraction succeeds exactly on the BodyKey
credential variant, mapping key1 to name and api_key to transaction_key,
and fails with FailedToObtainAuthType on each of the other credential
variants, for every payload those variants can carry. -/
theorem merchant_authentication_spec (api_key key1 api_secret : String) :
    MerchantAuthentication.tryFromAuthType (ConnectorAuthType.BodyKey api_key key1) =
      Except.ok { name := key1, transaction_key := api_key } ∧
    MerchantAuthentication.tryFromAuthType (ConnectorAuthType.HeaderKey api_key) =
      Except.error ConnectorError.FailedToObtainAuthType ∧
    MerchantAuthentication.tryFromAuthType
        (ConnectorAuthType.SignatureKey api_key key1 api_secret) =
      Except.error ConnectorError.FailedToObtainAuthType :=
  ⟨rfl, rfl, rfl⟩

/-- C7: the native payment status mapping sends Approved to Charged,
Declined to Failure, Error to Failure and HeldForReview to Pending — a
total assignment over the whole 4-value native enumeration — and
HeldForReview is the declared default variant of that enumeration. -/
theorem payment_status_mapping_table :
    AttemptStatus.fromPaymentStatus AuthorizedotnetPaymentStatus.Approved =
      AttemptStatus.Charged ∧
    AttemptStatus.fromPaymentStatus AuthorizedotnetPaymentStatus.Declined =
      AttemptStatus.Failure ∧
    AttemptStatus.fromPaymentStatus AuthorizedotnetPaymentStatus.Error =
      AttemptStatus.Failure ∧
    AttemptStatus.fromPaymentStatus AuthorizedotnetPaymentStatus.HeldForReview =
      AttemptStatus.Pending ∧
    (default : AuthorizedotnetPaymentStatus) = AuthorizedotnetPaymentStatus.HeldForReview :=
  ⟨rfl, rfl, rfl, rfl, rfl⟩

/-- C10: the refund-sync parse transformer always succeeds and always
produces the success variant, carrying the native transaction id as
connector_refund_id together with the mapped refund status — never an
error payload, even when the mapped status is Failure — and leaves the
request and credentials of the canonical refund record unchanged. -/
theorem refund_sync_parse_always_success
    (item : ResponseRouterData AuthorizedotnetSyncResponse RefundsRouterData) :
    ∃ r, parseRefundSyncResponse item = Except.ok r ∧
      r.response = Except.ok
        { connector_refund_id := item.response.transaction.transaction_id,
          refund_status :=
            RefundStatus.fromSyncStatus item.response.transaction.transaction_status } ∧
      (∀ e, r.response ≠ Except.error e) ∧
      r.request = item.data.request ∧
      r.connector_auth_type = item.data.connector_auth_type := by
  refine ⟨_, rfl, rfl, ?_, rfl, rfl⟩
  intro e h
  simp at h

/-- Helper: the connector metadata produced for a masked account number
decodes back through the PaymentDetails encoding to the same value. -/
theorem decode_encode_refund_details (acc : String) :
    decodePaymentDetails (encodePaymentDetails (construct_refund_payment_details acc)) =
      some (construct_refund_payment_details acc) := rfl

/-- C4: for every canonical refund record whose request carries no
connector metadata, building the refund wire request fails with the typed
MissingRequiredField error naming the field connector metadata; the build
is a total Lean function, so it neither panics nor substitutes a default. -/
theorem refund_missing_metadata (rec : RefundsRouterData)
    (h : rec.request.connector_metadata = none) :
    buildRefundRequest rec =
      Except.error (ConnectorError.MissingRequiredField "connector_metadata") := by
  unfold buildRefundRequest
  rw [h]
  rfl

/-- C4 witness: the theorem applied at a concrete metadata-free record. -/
theorem refund_missing_metadata_witness :
    buildRefundRequest sampleRefundRecordNoMetadata =
      Except.error (ConnectorError.MissingRequiredField "connector_metadata") :=
  refund_missing_metadata sampleRefundRecordNoMetadata rfl

/-- C9: get_and_deserialize_key propagates any retrieval error from
get_key unchanged (in particular a not-found error), fails with the typed
JsonDeserializationFailed error when the retrieved bytes do not parse as
the target type, succeeds when they do, and the not-found error is
distinct from the deserialization error. -/
theorem get_and_deserialize_key_spec {T : Type}
    (get_key : String → Except RedisError (List Nat))
    (parse_struct : List Nat → String → Option T)
    (key type_name : String) :
    (∀ e, get_key key = Except.error e →
      get_and_deserialize_key get_key parse_struct key type_name = Except.error e) ∧
    (∀ bytes, get_key key = Except.ok bytes → parse_struct bytes type_name = none →
      get_and_deserialize_key get_key parse_struct key type_name =
        Except.error RedisError.JsonDeserializationFailed) ∧
    (∀ bytes v, get_key key = Except.ok bytes → parse_struct bytes type_name = some v →
      get_and_deserialize_key get_key parse_struct key type_name = Except.ok v) ∧
    RedisError.NotFound ≠ RedisError.JsonDeserializationFailed := by
  refine ⟨?_, ?_, ?_, by decide⟩
  · intro e h
    simp [get_and_deserialize_key, h]
  · intro bytes h hparse
    simp [get_and_deserialize_key, h, hparse]
  · intro bytes v h hparse
    simp [get_and_deserialize_key, h, hparse]

/-- C9 witness: the theorem applied to a concrete store holding one key
whose bytes fail to parse, and to a concrete missing key. -/
theorem get_and_deserialize_key_witness :
    get_and_deserialize_key sampleGetKey sampleRejectingParse "k1" "SomeType" =
      Except.error RedisError.JsonDeserializationFailed ∧
    get_and_deserialize_key sampleGetKey sampleRejectingParse "k2" "SomeType" =
      Except.error RedisError.NotFound :=
  ⟨(get_and_deserialize_key_spec sampleGetKey sampleRejectingParse "k1" "SomeType").2.1
      [123] rfl rfl,
   (get_and_deserialize_key_spec sampleGetKey sampleRejectingParse "k2" "SomeType").1
      RedisError.NotFound rfl⟩

/-- C6: for every payments or refund wire response carrying a non-empty
native error array, the canonical error payload is built from exactly the
first entry (code from error_code, message from error_text, no reason),
and its status_code is the transport-level HTTP status of the call. -/
theorem error_first_entry_transport_status
    (item : ResponseRouterData AuthorizedotnetPaymentsResponse PaymentsRouterData)
    (is_auth_only : Bool) (e : ErrorMessage) (rest : List ErrorMessage)
    (h : item.response.transaction_response.errors = some (e :: rest))
    (ritem : ResponseRouterData AuthorizedotnetRefundResponse RefundsRouterData)
    (e2 : ErrorMessage) (rest2 : List ErrorMessage)
    (h2 : ritem.response.transaction_response.errors = some (e2 :: rest2)) :
    (∃ r, parsePaymentsResponse item is_auth_only = Except.ok r ∧
      r.response = Except.error
        { code := e.error_code, message := e.error_text, reason := none,
          status_code := item.http_code }) ∧
    (∃ r, parseRefundResponse ritem = Except.ok r ∧
      r.response = Except.error
        { code := e2.error_code, message := e2.error_text, reason := none,
          status_code := ritem.http_code }) := by
  constructor
  · refine ⟨_, rfl, ?_⟩
    simp [parsePaymentsResponse, h]
  · refine ⟨_, rfl, ?_⟩
    simp [parseRefundResponse, h2]

/-- C6 witness: the theorem applied to a concrete declined payments
response with error entry code "2" text "Declined" over HTTP 200, and a
concrete refund response with error entry code "5" over HTTP 502. -/
theorem error_first_entry_transport_status_witness :
    (∃ r, parsePaymentsResponse sampleDeclinedItem false = Except.ok r ∧
      r.response = Except.error
        { code := "2", message := "Declined", reason := none, status_code := 200 }) ∧
    (∃ r, parseRefundResponse sampleRefundErrorItem = Except.ok r ∧
      r.response = Except.error
        { code := "5", message := "Bad amount", reason := none, status_code := 502 }) :=
  error_first_entry_transport_status sampleDeclinedItem false
    { error_code := "2", error_text := "Declined" } [] rfl
    sampleRefundErrorItem { error_code := "5", error_text := "Bad amount" } [] rfl

/-- C8: for every successfully parsed payments or refund response, the
canonical response field is the error variant exactly when the wire
payload carried at least one native error entry, and otherwise is the
success variant carrying the native transaction id as the connector
resource identifier; the Result type makes the two variants mutually
exclusive and jointly exhaustive. -/
theorem response_success_error_exclusivity
    (item : ResponseRouterData AuthorizedotnetPaymentsResponse PaymentsRouterData)
    (is_auth_only : Bool) (r : PaymentsRouterData)
    (hr : parsePaymentsResponse item is_auth_only = Except.ok r)
    (ritem : ResponseRouterData AuthorizedotnetRefundResponse RefundsRouterData)
    (rr : RefundsRouterData)
    (hrr : parseRefundResponse ritem = Except.ok rr) :
    ((∃ err, r.response = Except.error err) ↔
      ∃ e rest, item.response.transaction_response.errors = some (e :: rest)) ∧
    ((∀ e rest, item.response.transaction_response.errors ≠ some (e :: rest)) →
      ∃ p, r.response = Except.ok p ∧
        p.resource_id = ResponseId.ConnectorTransactionId
          item.response.transaction_response.transaction_id) ∧
    ((∃ err, rr.response = Except.error err) ↔
      ∃ e rest, ritem.response.transaction_response.errors = some (e :: rest)) ∧
    ((∀ e rest, ritem.response.transaction_response.errors ≠ some (e :: rest)) →
      ∃ d, rr.response = Except.ok d ∧
        d.connector_refund_id = ritem.response.transaction_response.transaction_id) := by
  simp only [parsePaymentsResponse, Except.ok.injEq] at hr
  simp only [parseRefundResponse, Except.ok.injEq] at hrr
  subst hr
  subst hrr
  refine ⟨?_, ?_, ?_, ?_⟩
  · rcases hE : item.response.transaction_response.errors with _ | l
    · simp [hE]
    · rcases l with _ | ⟨e0, es⟩
      · simp [hE]
      · simp [hE]
  · intro hnone
    rcases hE : item.response.transaction_response.errors with _ | l
    · simp [hE]
    · rcases l with _ | ⟨e0, es⟩
      · simp [hE]
      · exact absurd hE (hnone e0 es)
  · rcases hE : ritem.response.transaction_response.errors with _ | l
    · simp [hE]
    · rcases l with _ | ⟨e0, es⟩
      · simp [hE]
      · simp [hE]
  · intro hnone
    rcases hE : ritem.response.transaction_response.errors with _ | l
    · simp [hE]
    · rcases l with _ | ⟨e0, es⟩
      · simp [hE]
      · exact absurd hE (hnone e0 es)

/-- C8 witness: the theorem applied to a concrete error-free authorize
response and a concrete error-free refund response, whose parses are the
concrete success records. -/
theorem response_success_error_exclusivity_witness :
    ((∃ err, sampleParsedRecord.response = Except.error err) ↔
      ∃ e rest,
        sampleAuthorizeItem.response.transaction_response.errors = some (e :: rest)) ∧
    ((∀ e rest,
        sampleAuthorizeItem.response.transaction_response.errors ≠ some (e :: rest)) →
      ∃ p, sampleParsedRecord.response = Except.ok p ∧
        p.resource_id = ResponseId.ConnectorTransactionId "tid1") ∧
    ((∃ err, sampleRefundParsedRecord.response = Except.error err) ↔
      ∃ e rest,
        sampleRefundOkItem.response.transaction_response.errors = some (e :: rest)) ∧
    ((∀ e rest,
        sampleRefundOkItem.response.transaction_response.errors ≠ some (e :: rest)) →
      ∃ d, sampleRefundParsedRecord.response = Except.ok d ∧
        d.connector_refund_id = "rid1") :=
  response_success_error_exclusivity sampleAuthorizeItem false sampleParsedRecord rfl
    sampleRefundOkItem sampleRefundParsedRecord rfl

/-- C3 counterexample: the claim does not hold for every canonical refund
record carrying metadata from a prior authorize response. Concretely, the
sample authorize response (account_number present) parses to a success
payload carrying the encoded masked-card metadata, yet building a refund
request from a refund record carrying exactly that metadata fails — with
FailedToObtainAuthType — when the record's credentials are the HeaderKey
variant rather than the BodyKey variant the connector expects. -/
theorem refund_metadata_roundtrip_counterexample :
    parsePaymentsResponse sampleAuthorizeItem false = Except.ok sampleParsedRecord ∧
    sampleParsedRecord.response = Except.ok sampleParsedPayload ∧
    sampleParsedPayload.connector_metadata = some sampleMetadata ∧
    sampleRefundRecordHeaderKey.request.connector_metadata = some sampleMetadata ∧
    buildRefundRequest sampleRefundRecordHeaderKey =
      Except.error ConnectorError.FailedToObtainAuthType :=
  ⟨rfl, rfl, rfl, rfl, rfl⟩

/-- C3 (amended): for every authorize wire response containing an account
identifier, parsing produces a success payload whose connector_metadata is
the connector's own PaymentDetails encoding of the masked number, and
building a refund request from any canonical refund record carrying that
metadata succeeds, provided the record's connector_auth_type is the BodyKey
variant the connector expects (so that the auth extraction, an independent
fallible step of the build, does not fail). -/
theorem refund_metadata_roundtrip
    (item : ResponseRouterData AuthorizedotnetPaymentsResponse PaymentsRouterData)
    (is_auth_only : Bool) (acc : String)
    (hacc : item.response.transaction_response.account_number = some acc)
    (r : PaymentsRouterData) (p : PaymentsResponseData)
    (hr : parsePaymentsResponse item is_auth_only = Except.ok r)
    (hp : r.response = Except.ok p)
    (rec : RefundsRouterData) (api_key key1 : String)
    (hauth : rec.connector_auth_type = ConnectorAuthType.BodyKey api_key key1)
    (hmeta : rec.request.connector_metadata = p.connector_metadata) :
    p.connector_metadata =
      some (encodePaymentDetails (construct_refund_payment_details acc)) ∧
    ∃ req, buildRefundRequest rec = Except.ok req := by
  simp only [parsePaymentsResponse, Except.ok.injEq] at hr
  subst hr
  have hpm : p.connector_metadata =
      some (encodePaymentDetails (construct_refund_payment_details acc)) := by
    rcases hE : item.response.transaction_response.errors with _ | l
    · simp only [hE] at hp
      simp only [Option.bind, Except.ok.injEq] at hp
      subst hp
      simp [hacc]
    · rcases l with _ | ⟨e0, es⟩
      · simp only [hE] at hp
        simp only [Option.bind, List.head?, Option.map, Except.ok.injEq] at hp
        subst hp
        simp [hacc]
      · simp [hE] at hp
  refine ⟨hpm, ?_⟩
  rw [hpm] at hmeta
  simp only [buildRefundRequest, hmeta, hauth, MerchantAuthentication.tryFromAuthType]
  exact ⟨_, rfl⟩

/-- C3 witness: the amended theorem applied to the sample authorize
response and the sample BodyKey refund record. -/
theorem refund_metadata_roundtrip_witness :
    sampleParsedPayload.connector_metadata =
      some (encodePaymentDetails (construct_refund_payment_details "XXXX1111")) ∧
    ∃ req, buildRefundRequest sampleRefundRecordBodyKey = Except.ok req :=
  refund_metadata_roundtrip sampleAuthorizeItem false "XXXX1111" rfl
    sampleParsedRecord sampleParsedPayload rfl rfl
    sampleRefundRecordBodyKey "api" "key1" rfl rfl

end Hyperswitch
